import Mathlib

/-!
# Shorty URL shortener — verification development

Shallow embedding of the two Cloudflare-worker variants of the `shorty`
URL-shortening service:

* `src/worker.js` — the abuse-gated variant: Turnstile CAPTCHA gate,
  domain blocklist, community reporting with auto-block, stats and
  redirect endpoints (CORS origin `https://shorty.lkly.net`);
* `src/unnamed/part_000` — the base variant: create, stats and redirect
  endpoints only (CORS origin `*`).

The external collaborators (the KV store, the `URL` constructor, the
Turnstile verification service, `Math.random`-driven ID generation and
`Date`) are modelled as explicit parameters of an `Env` record; store
values are modelled as a sum of plain strings and parsed metadata
records, with `JSON.stringify`/`JSON.parse` acting as the coercions
between the two (serialization of a metadata record is treated as
faithful: parsing a stringified record recovers the record).

Handlers return an `HRes`: the HTTP response, the resulting store, an
effect trace (KV reads/writes and external Turnstile calls, in program
order) and the spawned background task, if any (`ctx.waitUntil`).
-/

namespace Shorty

/-- The metadata record stored under `shortId_meta`
(`{originalUrl, createdAt, clicks}`, worker.js lines 163-167). -/
structure Metadata where
  originalUrl : String
  createdAt : String
  clicks : Nat
deriving DecidableEq, Repr

/-- A value held in the KV store: either a plain string (URLs, report
counts, block markers, throttle markers) or a serialized metadata record
(`JSON.stringify(metadata)` is modelled by the `meta` constructor). -/
inductive StoreVal where
  | str (s : String)
  | meta (m : Metadata)
deriving DecidableEq, Repr

/-- The KV namespace `SHORTY_LINKS`: `get(key) → value | null`. -/
def Store := String → Option StoreVal

/-- `LINKS_KV.put(key, value)` (TTL options are not modelled: a
`ReportThrottle` entry is present exactly while its 24-hour window is
open, so presence of the key already encodes the window). -/
def putKV (st : Store) (k : String) (v : StoreVal) : Store :=
  fun k2 => if k2 = k then some v else st k2

/-- JavaScript truthiness of a store value: the empty string is falsy,
every other stored string is truthy, and a stored JSON object
serialization (a nonempty string starting with a brace) is truthy. -/
def truthyVal : StoreVal → Bool
  | .str s => s ≠ ""
  | .meta _ => true

/-- JavaScript truthiness of a nullable string (`null`/`undefined` and
`""` are falsy). -/
def truthyO (o : Option String) : Bool := o.getD "" ≠ ""

/-- JavaScript `String.prototype.startsWith`, stated over the character
list so that it evaluates by kernel reduction. -/
def strStartsWith (s p : String) : Bool := p.data.isPrefixOf s.data

/-- Escape a string for inclusion in a JSON string literal (the two
escapes JSON.stringify always applies to URL-like data: backslash and
double quote; control-character escapes do not arise in this program's
data). -/
def jsonEscape (s : String) : String :=
  ⟨s.data.foldl (fun acc c =>
    if c = '\\' then acc ++ ['\\', '\\']
    else if c = '"' then acc ++ ['\\', '"']
    else acc ++ [c]) []⟩

/-- The JSON text of a metadata record, as `JSON.stringify` produces it
(insertion order of the object literal at worker.js lines 163-167). -/
def encodeMeta (m : Metadata) : String :=
  "\x7b\"originalUrl\":\"" ++ jsonEscape m.originalUrl ++
  "\",\"createdAt\":\"" ++ jsonEscape m.createdAt ++
  "\",\"clicks\":" ++ toString m.clicks ++ "\x7d"

/-- The string a store value reads back as (KV values are strings on the
wire; a `meta` value reads back as its JSON text). -/
def StoreVal.asString : StoreVal → String
  | .str s => s
  | .meta m => encodeMeta m

/-- `JSON.parse` of a store value, as used on `shortId_meta` records: a
`meta` value parses back to its record; the plain strings this program
stores (URLs, `"auto"`, `"1"`, decimal counts) are never parsed as
metadata records on any reachable path, so a plain string is modelled as
a parse failure (the `catch` branch). -/
def parseMetaVal : StoreVal → Option Metadata
  | .meta m => some m
  | .str _ => none

/-- JavaScript `parseInt` on the decimal strings this program produces:
optional leading minus sign, then a maximal run of digits; `none` models
`NaN` (no leading digit, e.g. `parseInt("NaN")`). Whitespace trimming
and radix prefixes are not modelled — no value this program writes uses
them. -/
def jsParseInt (s : String) : Option Int :=
  let neg := strStartsWith s "-"
  let rest := if neg then s.drop 1 else s
  let ds := rest.data.takeWhile Char.isDigit
  if ds.isEmpty then none
  else
    let n : Nat := ds.foldl (fun a c => a * 10 + (c.toNat - 48)) 0
    some (if neg then -(n : Int) else (n : Int))

/-- JavaScript template interpolation of a nullable string
(`` `${ip}` `` renders `null` as the string `"null"`). -/
def jsInterp (o : Option String) : String := o.getD "null"

/-- Result of `new URL(u)` when it does not throw; only `hostname` is
consumed by this program. The built-in lowercases the hostname during
parsing. -/
structure UrlObj where
  hostname : String
deriving DecidableEq, Repr

/-- Turnstile siteverify outcome: `{success, "error-codes"?}`. -/
structure TurnstileOutcome where
  success : Bool
  errorCodes : Option (List String)
deriving DecidableEq, Repr

/-- The external collaborators of one request, fixed for its duration:
the `URL` constructor, the `TURNSTILE_SECRET_KEY` binding, the Turnstile
verification service, the stream of `generateShortId()` outputs (the
`k`-th call of the request returns `shortIds k`), and
`new Date().toISOString()`. -/
structure Env where
  parseURL : String → Option UrlObj
  secretKey : Option String
  verify : String → Option String → TurnstileOutcome
  shortIds : Nat → String
  nowISO : String

/-- One observable side effect, in program order. -/
inductive Effect where
  | kvGet (k : String)
  | kvPut (k : String) (v : StoreVal)
  | turnstileCall (secret : String) (token : String) (ip : Option String)
deriving DecidableEq, Repr

/-- `error-codes` rendering in the CAPTCHA failure message:
`outcome['error-codes']?.join(', ') || 'Unknown reason'` — a missing
array, and an empty join (the empty string is falsy), both fall back. -/
def joinCodes (ec : Option (List String)) : String :=
  match ec with
  | none => "Unknown reason"
  | some l =>
    let s := String.intercalate ", " l
    if s = "" then "Unknown reason" else s

/-- JSON bodies this program serializes into responses (each constructor
is one object shape; equality of constructors models equality of the
serialized JSON text). -/
inductive JVal where
  | errObj (msg : String)
  | msgObj (msg : String)
  | createObj (shortUrl originalUrl : String)
  | metaObj (m : Metadata)
deriving DecidableEq, Repr

/-- An HTTP response body. -/
inductive Body where
  | text (s : String)
  | json (j : JVal)
  | empty
deriving DecidableEq, Repr

/-- An HTTP response: status, body, headers in insertion order. -/
structure Resp where
  status : Nat
  body : Body
  headers : List (String × String)
deriving DecidableEq, Repr

/-- JavaScript object property assignment on a header map: update in
place if the key exists (order preserved), else append. -/
def setHeader : List (String × String) → String → String → List (String × String)
  | [], k, v => [(k, v)]
  | (k2, v2) :: t, k, v =>
    if k2 = k then (k, v) :: t else (k2, v2) :: setHeader t k v

/-- Object spread `{...base, ...hs}`: each entry of `hs` assigned onto
`base` in order. -/
def spreadHeaders (base : List (String × String)) (hs : List (String × String)) :
    List (String × String) :=
  hs.foldl (fun acc kv => setHeader acc kv.1 kv.2) base

/-- The result of running one handler: response, resulting store, effect
trace, and the shortId whose click-increment task `ctx.waitUntil`
spawned, if any. -/
structure HRes where
  resp : Resp
  store : Store
  trace : List Effect
  task : Option String

/-- `jsonResponse` of `src/worker.js` (lines 18-24): sets Content-Type
and the CORS headers onto the supplied header object, origin restricted
to the frontend domain. -/
def jsonResponseW (data : JVal) (status : Nat) (headers : List (String × String)) : Resp :=
  let h1 := setHeader headers "Content-Type" "application/json"
  let h2 := setHeader h1 "Access-Control-Allow-Origin" "https://shorty.lkly.net"
  let h3 := setHeader h2 "Access-Control-Allow-Methods" "GET, POST, OPTIONS"
  let h4 := setHeader h3 "Access-Control-Allow-Headers" "Content-Type"
  ⟨status, .json data, h4⟩

/-- `errorResponse` of `src/worker.js` (lines 27-36): base CORS headers,
overridden by the supplied ones, then `jsonResponse({error: message})`. -/
def errorResponseW (message : String) (status : Nat) (headers : List (String × String)) : Resp :=
  let finalHeaders := spreadHeaders
    [("Access-Control-Allow-Origin", "https://shorty.lkly.net"),
     ("Access-Control-Allow-Methods", "GET, POST, OPTIONS"),
     ("Access-Control-Allow-Headers", "Content-Type")] headers
  jsonResponseW (.errObj message) status finalHeaders

/-- `jsonResponse` of `src/unnamed/part_000` (lines 18-24): identical to
the worker variant except the origin is `*`. -/
def jsonResponseB (data : JVal) (status : Nat) (headers : List (String × String)) : Resp :=
  let h1 := setHeader headers "Content-Type" "application/json"
  let h2 := setHeader h1 "Access-Control-Allow-Origin" "*"
  let h3 := setHeader h2 "Access-Control-Allow-Methods" "GET, POST, OPTIONS"
  let h4 := setHeader h3 "Access-Control-Allow-Headers" "Content-Type"
  ⟨status, .json data, h4⟩

/-- `errorResponse` of `src/unnamed/part_000` (lines 27-36). -/
def errorResponseB (message : String) (status : Nat) (headers : List (String × String)) : Resp :=
  let finalHeaders := spreadHeaders
    [("Access-Control-Allow-Origin", "*"),
     ("Access-Control-Allow-Methods", "GET, POST, OPTIONS"),
     ("Access-Control-Allow-Headers", "Content-Type")] headers
  jsonResponseB (.errObj message) status finalHeaders

/-- The `corsHeaders` object of the `/api/create` branch (worker.js
lines 67-71). -/
def corsCreateW : List (String × String) :=
  [("Access-Control-Allow-Origin", "https://shorty.lkly.net"),
   ("Access-Control-Allow-Methods", "POST, OPTIONS"),
   ("Access-Control-Allow-Headers", "Content-Type")]

/-- The `corsHeaders` object of the `/api/report` branch (worker.js
lines 188-192), identical to the create branch's. -/
def corsReportW : List (String × String) := corsCreateW

/-- The `corsHeaders` object of the `/api/stats/` branch (worker.js
lines 309-313). -/
def corsStatsW : List (String × String) :=
  [("Access-Control-Allow-Origin", "https://shorty.lkly.net"),
   ("Access-Control-Allow-Methods", "GET, OPTIONS"),
   ("Access-Control-Allow-Headers", "Content-Type")]

/-- The `corsHeaders` object of the `/api/stats/` branch of the base
variant (part_000 lines 127-131), origin `*`. -/
def corsStatsB : List (String × String) :=
  [("Access-Control-Allow-Origin", "*"),
   ("Access-Control-Allow-Methods", "GET, OPTIONS"),
   ("Access-Control-Allow-Headers", "Content-Type")]

/-- Hostname normalization used by the blocklist and report paths
(worker.js lines 117-119, 255-257): strip a leading `www.`; lowercasing
already happened inside the `URL` built-in. -/
def normalizeDomain (host : String) : String :=
  if strStartsWith host "www." then host.drop 4 else host

/-- The short-ID generation loop of `create` (worker.js lines 148-161,
part_000 lines 86-99): `do { shortId = generateShortId(); attempts++;
if (attempts > maxAttempts) fail; } while (KV.get(shortId) !== null)`.
`k` is the number of attempts already made (the `k`-th candidate is
`env.shortIds k`); `fuel` is a structural-termination device chosen
larger than the source's bound, so the `attempts > 5` guard — checked
before the existence lookup, exactly as in the source — is what stops
the loop. Returns the assigned ID (or `none` on exhaustion) and the KV
lookups performed. -/
def idLoop (env : Env) (store : Store) : Nat → Nat → Option String × List Effect
  | _, 0 => (none, [])
  | k, fuel + 1 =>
    let cand := env.shortIds k
    if k + 1 > 5 then (none, [])
    else
      match store cand with
      | none => (some cand, [.kvGet cand])
      | some _ =>
        let r := idLoop env store (k + 1) fuel
        (r.1, .kvGet cand :: r.2)

/-- Body of a `POST /api/create` request
(`{longUrl, 'cf-turnstile-response'}`); absent fields are `none`. -/
structure CreateBody where
  longUrl : Option String
  token : Option String

/-- Body of a `POST /api/report` request
(`{reportedUrl, 'cf-turnstile-response'}`). -/
structure ReportBody where
  reportedUrl : Option String
  token : Option String

/-- Continuation of `/api/create` after the Turnstile gate and blocklist
check (worker.js lines 136-177; identical to part_000 lines 75-115):
`longUrl` presence check, URL validation, the ID loop, the two KV writes
and the success response. `t0` is the trace accumulated so far. -/
def createRest (env : Env) (store : Store) (longUrl : Option String)
    (t0 : List Effect) : HRes :=
  if truthyO longUrl = false then
    ⟨errorResponseW "Missing longUrl parameter" 400 corsCreateW, store, t0, none⟩
  else
    let u := longUrl.getD ""
    match env.parseURL u with
    | none =>
      ⟨errorResponseW "Invalid URL format provided." 400 corsCreateW, store, t0, none⟩
    | some _ =>
      let gen := idLoop env store 0 6
      match gen.1 with
      | none =>
        ⟨errorResponseW "Failed to generate a unique short ID." 500 corsCreateW,
         store, t0 ++ gen.2, none⟩
      | some shortId =>
        let md : Metadata := ⟨u, env.nowISO, 0⟩
        let st1 := putKV store shortId (.str u)
        let st2 := putKV st1 (shortId ++ "_meta") (.meta md)
        ⟨jsonResponseW (.createObj ("https://lkly.net/+" ++ shortId) u) 200 corsCreateW,
         st2,
         t0 ++ gen.2 ++ [.kvPut shortId (.str u), .kvPut (shortId ++ "_meta") (.meta md)],
         none⟩

/-- The `POST /api/create` handler of `src/worker.js` (lines 65-184):
Turnstile token presence, secret presence, external verification,
blocklist check on the normalized hostname (skipped when the URL does
not parse — deferred to the later validation), then `createRest`. -/
def createW (env : Env) (store : Store) (body : CreateBody) (ip : Option String) : HRes :=
  if truthyO body.token = false then
    ⟨errorResponseW "Missing CAPTCHA token." 400 corsCreateW, store, [], none⟩
  else if truthyO env.secretKey = false then
    ⟨errorResponseW "CAPTCHA configuration error." 500 corsCreateW, store, [], none⟩
  else
    let tok := body.token.getD ""
    let sk := env.secretKey.getD ""
    let outcome := env.verify tok ip
    let t0 : List Effect := [.turnstileCall sk tok ip]
    if outcome.success = false then
      ⟨errorResponseW ("CAPTCHA verification failed. [" ++ joinCodes outcome.errorCodes ++ "]")
        403 corsCreateW, store, t0, none⟩
    else
      let domainToCheck : Option String :=
        match body.longUrl with
        | some u => (env.parseURL u).map (fun o => normalizeDomain o.hostname)
        | none => none
      if truthyO domainToCheck then
        let blockKey := "BLOCKED:" ++ domainToCheck.getD ""
        match store blockKey with
        | some _ =>
          ⟨errorResponseW "This domain has been blocked and cannot be shortened."
            403 corsCreateW, store, t0 ++ [.kvGet blockKey], none⟩
        | none => createRest env store body.longUrl (t0 ++ [.kvGet blockKey])
      else
        createRest env store body.longUrl t0

/-- The short-link reference pattern of the report path
(`/^https:\/\/lkly\.net\/\+(.+)$/`, worker.js line 236): a match yields
the nonempty capture after the fixed 18-character prefix. (`.` not
matching a newline is irrelevant to the URLs this service emits.) -/
def shortMatch (ru : String) : Option String :=
  if strStartsWith ru "https://lkly.net/+" ∧ (ru.drop 18).length > 0 then
    some (ru.drop 18)
  else none

/-- The report-count read of the report path (worker.js line 276):
`await LINKS_KV.get(reportCountKey) || '0'` — an absent or falsy value
reads as the string `"0"`. -/
def reportCountRaw (store : Store) (domain : String) : String :=
  match store ("REPORT_COUNT:" ++ domain) with
  | some v => if truthyVal v then v.asString else "0"
  | none => "0"

/-- Continuation of `/api/report` once the destination URL is known
(worker.js lines 252-298): hostname extraction and normalization,
throttle check, count increment, throttle write, threshold check and
auto-block. -/
def reportRest (env : Env) (store : Store) (targetUrl : String) (ip : Option String)
    (t0 : List Effect) : HRes :=
  match env.parseURL targetUrl with
  | none =>
    ⟨errorResponseW "Invalid URL format provided in report." 400 corsReportW, store, t0, none⟩
  | some obj =>
    let domain := normalizeDomain obj.hostname
    if domain = "" then
      ⟨errorResponseW "Could not extract domain from reported URL." 500 corsReportW,
       store, t0, none⟩
    else
      let userReportKey := "REPORTED:" ++ jsInterp ip ++ ":" ++ domain
      match store userReportKey with
      | some _ =>
        ⟨jsonResponseW (.msgObj "You have already reported this domain recently.")
          429 corsReportW, store, t0 ++ [.kvGet userReportKey], none⟩
      | none =>
        let reportCountKey := "REPORT_COUNT:" ++ domain
        let c1 : Option Int := (jsParseInt (reportCountRaw store domain)).map (· + 1)
        let countStr : String :=
          match c1 with
          | some n => toString n
          | none => "NaN"
        let st1 := putKV store reportCountKey (.str countStr)
        let st2 := putKV st1 userReportKey (.str "1")
        let t2 := t0 ++ [.kvGet userReportKey, .kvGet reportCountKey,
                         .kvPut reportCountKey (.str countStr), .kvPut userReportKey (.str "1")]
        if (match c1 with | some n => decide (n ≥ 3) | none => false) then
          let st3 := putKV st2 ("BLOCKED:" ++ domain) (.str "auto")
          ⟨jsonResponseW (.msgObj "Report submitted. Domain has been blocked due to multiple reports.")
            200 corsReportW, st3, t2 ++ [.kvPut ("BLOCKED:" ++ domain) (.str "auto")], none⟩
        else
          ⟨jsonResponseW (.msgObj "Report submitted successfully. Thank you.")
            200 corsReportW, st2, t2, none⟩

/-- The `POST /api/report` handler of `src/worker.js` (lines 187-304):
Turnstile gate (identical to the create path), `reportedUrl` presence,
short-link resolution (a dead short link is acknowledged as a no-op
success), then `reportRest`. -/
def reportW (env : Env) (store : Store) (body : ReportBody) (ip : Option String) : HRes :=
  if truthyO body.token = false then
    ⟨errorResponseW "Missing CAPTCHA token." 400 corsReportW, store, [], none⟩
  else if truthyO env.secretKey = false then
    ⟨errorResponseW "CAPTCHA configuration error." 500 corsReportW, store, [], none⟩
  else
    let tok := body.token.getD ""
    let sk := env.secretKey.getD ""
    let outcome := env.verify tok ip
    let t0 : List Effect := [.turnstileCall sk tok ip]
    if outcome.success = false then
      ⟨errorResponseW ("CAPTCHA verification failed. [" ++ joinCodes outcome.errorCodes ++ "]")
        403 corsReportW, store, t0, none⟩
    else if truthyO body.reportedUrl = false then
      ⟨errorResponseW "Missing reportedUrl parameter." 400 corsReportW, store, t0, none⟩
    else
      let ru := body.reportedUrl.getD ""
      match shortMatch ru with
      | some sid =>
        match store sid with
        | some v =>
          if truthyVal v then
            reportRest env store v.asString ip (t0 ++ [.kvGet sid])
          else
            ⟨jsonResponseW (.msgObj "Report noted (short link not found).") 200 corsReportW,
             store, t0 ++ [.kvGet sid], none⟩
        | none =>
          ⟨jsonResponseW (.msgObj "Report noted (short link not found).") 200 corsReportW,
           store, t0 ++ [.kvGet sid], none⟩
      | none => reportRest env store ru ip t0

/-- Engine-specific message of the `JSON.parse` exception surfaced by
the stats path's `catch` (`e.message || 'Failed to fetch stats.'`);
modelled as an abstract constant shared by both variants (both run on
the same engine). -/
def jsonParseExcMessage : String := "Unexpected token in JSON"

/-- The `GET /api/stats/{shortId}` handler of `src/worker.js`
(lines 307-340): strips the route prefix and an optional leading `+`,
reads `shortId_meta`, 404 when falsy, otherwise parses and returns it
(a parse exception is caught as a 500). -/
def statsW (store : Store) (path : String) : HRes :=
  let sid0 := path.drop 11
  let sid := if strStartsWith sid0 "+" then sid0.drop 1 else sid0
  if sid = "" then
    ⟨errorResponseW "Missing short ID in path." 400 corsStatsW, store, [], none⟩
  else
    let k := sid ++ "_meta"
    match store k with
    | none =>
      ⟨errorResponseW "Short URL not found." 404 corsStatsW, store, [.kvGet k], none⟩
    | some v =>
      if truthyVal v = false then
        ⟨errorResponseW "Short URL not found." 404 corsStatsW, store, [.kvGet k], none⟩
      else
        match parseMetaVal v with
        | some m => ⟨jsonResponseW (.metaObj m) 200 corsStatsW, store, [.kvGet k], none⟩
        | none =>
          ⟨errorResponseW jsonParseExcMessage 500 corsStatsW, store, [.kvGet k], none⟩

/-- The `GET /api/stats/{shortId}` handler of `src/unnamed/part_000`
(lines 125-158), identical to the worker variant except for the CORS
origin. -/
def statsB (store : Store) (path : String) : HRes :=
  let sid0 := path.drop 11
  let sid := if strStartsWith sid0 "+" then sid0.drop 1 else sid0
  if sid = "" then
    ⟨errorResponseB "Missing short ID in path." 400 corsStatsB, store, [], none⟩
  else
    let k := sid ++ "_meta"
    match store k with
    | none =>
      ⟨errorResponseB "Short URL not found." 404 corsStatsB, store, [.kvGet k], none⟩
    | some v =>
      if truthyVal v = false then
        ⟨errorResponseB "Short URL not found." 404 corsStatsB, store, [.kvGet k], none⟩
      else
        match parseMetaVal v with
        | some m => ⟨jsonResponseB (.metaObj m) 200 corsStatsB, store, [.kvGet k], none⟩
        | none =>
          ⟨errorResponseB jsonParseExcMessage 500 corsStatsB, store, [.kvGet k], none⟩

/-- The detached click-increment task spawned by a successful redirect
(worker.js lines 362-377, part_000 lines 180-195): read `shortId_meta`;
when falsy, warn and write nothing (no auto-repair); when present, write
it back with `clicks` bumped by 1 (`(metadata.clicks || 0) + 1`; with
`clicks : Nat` the `|| 0` fallback on the falsy value 0 is the identity)
and every other field unchanged. A parse exception is caught and logged,
writing nothing. -/
def clickIncrement (store : Store) (shortId : String) : Store :=
  let k := shortId ++ "_meta"
  match store k with
  | some v =>
    if truthyVal v then
      match parseMetaVal v with
      | some m => putKV store k (.meta ⟨m.originalUrl, m.createdAt, m.clicks + 1⟩)
      | none => store
    else store
  | none => store

/-- The redirect handler of `src/worker.js` (lines 344-391): paths
outside `/api/` of the form `/+{shortId}`; a truthy KV hit spawns the
click-increment task and answers HTTP 301 with the stored URL, a miss
answers a plain-text 404. -/
def redirectW (store : Store) (path : String) : HRes :=
  let sid : Option String := if strStartsWith path "/+" then some (path.drop 2) else none
  if truthyO sid = false then
    ⟨⟨200, .text "Shorty API Endpoint. Use shorty.lkly.net for the frontend.", []⟩,
     store, [], none⟩
  else
    let s := sid.getD ""
    match store s with
    | some v =>
      if truthyVal v then
        ⟨⟨301, .empty, [("Location", v.asString)]⟩, store, [.kvGet s], some s⟩
      else
        ⟨⟨404, .text "Short URL not found.", []⟩, store, [.kvGet s], none⟩
    | none =>
      ⟨⟨404, .text "Short URL not found.", []⟩, store, [.kvGet s], none⟩

/-- The redirect handler of `src/unnamed/part_000` (lines 162-209);
its source text is identical to the worker variant's. -/
def redirectB (store : Store) (path : String) : HRes :=
  let sid : Option String := if strStartsWith path "/+" then some (path.drop 2) else none
  if truthyO sid = false then
    ⟨⟨200, .text "Shorty API Endpoint. Use shorty.lkly.net for the frontend.", []⟩,
     store, [], none⟩
  else
    let s := sid.getD ""
    match store s with
    | some v =>
      if truthyVal v then
        ⟨⟨301, .empty, [("Location", v.asString)]⟩, store, [.kvGet s], some s⟩
      else
        ⟨⟨404, .text "Short URL not found.", []⟩, store, [.kvGet s], none⟩
    | none =>
      ⟨⟨404, .text "Short URL not found.", []⟩, store, [.kvGet s], none⟩

/-- Modelled from the spec: the threat-intelligence (Safe Browsing)
step of the malicious-URL-checking variant is not among the provided
source files (only two of the three variants are). Outcome of the
external threat lookup for one URL. -/
inductive ThreatOutcome where
  | matched (threatTypes : List String)
  | noMatch
  | httpError (status : Nat)
  | networkError
deriving DecidableEq, Repr

/-- Modelled from the spec: the decision the create path takes on the
threat-intelligence result. -/
inductive ThreatDecision where
  | urlFlaggedUnsafe
  | safeBrowsingError
  | allow
deriving DecidableEq, Repr

/-- Modelled from the spec: "A positive match fails with
`URLFlaggedUnsafe`. Any failure of this external call (network error,
non-success HTTP status, missing API key) is treated as fail-closed:
the creation request is rejected with `SafeBrowsingError` rather than
allowed through." A missing API key rejects before any external call. -/
def safeBrowsingDecision (apiKey : Option String) (outcome : ThreatOutcome) :
    ThreatDecision :=
  if truthyO apiKey = false then .safeBrowsingError
  else
    match outcome with
    | .matched _ => .urlFlaggedUnsafe
    | .noMatch => .allow
    | .httpError _ => .safeBrowsingError
    | .networkError => .safeBrowsingError

/-- Headers with the `Access-Control-Allow-Origin` value erased, used to
state that two responses agree except in that header's value. -/
def normACAO (hs : List (String × String)) : List (String × String) :=
  hs.map (fun kv => if kv.1 = "Access-Control-Allow-Origin" then (kv.1, "") else kv)

/-- The empty KV store. -/
def emptyStore : Store := fun _ => none

/-- A concrete request environment used to exercise the handlers: the
`URL` built-in is populated on the two URLs the runs below submit, the
Turnstile secret is provisioned, verification succeeds, and the ID
generator always yields `abc123`. -/
def envC : Env where
  parseURL := fun s =>
    if s = "https://example.com" then some ⟨"example.com"⟩
    else if s = "https://www.evil.com/x" then some ⟨"evil.com"⟩
    else none
  secretKey := some "sk"
  verify := fun _ _ => ⟨true, none⟩
  shortIds := fun _ => "abc123"
  nowISO := "2026-01-01T00:00:00.000Z"

/-- A request environment whose Turnstile verification fails with two
reported reason codes. -/
def envFail : Env where
  parseURL := fun _ => none
  secretKey := some "sk"
  verify := fun _ _ => ⟨false, some ["invalid-input-response", "timeout-or-duplicate"]⟩
  shortIds := fun _ => "abc123"
  nowISO := "2026-01-01T00:00:00.000Z"

/-- A request environment with no Turnstile secret provisioned. -/
def envNoSecret : Env where
  parseURL := fun _ => none
  secretKey := none
  verify := fun _ _ => ⟨true, none⟩
  shortIds := fun _ => "abc123"
  nowISO := "2026-01-01T00:00:00.000Z"

/-- A store in which every candidate the ID generator of `envC` can
produce is already taken. -/
def storeIds : Store := fun k => if k = "abc123" then some (.str "x") else none

/-- A store holding one link `ab` with its metadata record. -/
def storeAB : Store := fun k =>
  if k = "ab" then some (.str "https://example.com")
  else if k = "ab_meta" then some (.meta ⟨"https://example.com", "t0", 7⟩)
  else none

/-- The report request body used in the runs below. -/
def reportBodyEvil : ReportBody := ⟨some "https://www.evil.com/x", some "tok"⟩

/-- The store obtained from the empty store after two successful reports
of `https://www.evil.com/x` from two distinct IPs. -/
def storeAfterTwoReports : Store :=
  (reportW envC (reportW envC emptyStore reportBodyEvil (some "ip1")).store
    reportBodyEvil (some "ip2")).store

/-- A store already holding a throttle entry for `(9.9.9.9, evil.com)`. -/
def storeThrottled : Store :=
  fun k => if k = "REPORTED:9.9.9.9:evil.com" then some (.str "1") else none

/-! ## Helper lemmas -/

/-- Appending the `_meta` suffix never yields the key back. -/
theorem append_meta_ne (s : String) : s ++ "_meta" ≠ s := by
  intro h
  have h2 := congrArg String.length h
  simp [String.length_append] at h2
  have h5 : "_meta".length = 5 := rfl
  omega

/-- An ID the generation loop returns was absent from the store. -/
theorem idLoop_some_absent (env : Env) (store : Store) :
    ∀ fuel k id tl, idLoop env store k fuel = (some id, tl) → store id = none := by
  intro fuel
  induction fuel with
  | zero => intro k id tl h; simp [idLoop] at h
  | succ f ih =>
    intro k id tl h
    unfold idLoop at h
    by_cases hk : k + 1 > 5
    · simp [hk] at h
    · simp only [hk, if_false] at h
      rcases hc : store (env.shortIds k) with _ | v
      · rw [hc] at h
        simp at h
        rw [← h.1, hc]
      · rw [hc] at h
        simp at h
        exact ih (k + 1) id (idLoop env store (k + 1) f).2 (by rw [← h.1])

/-! ## Claim theorems -/

/-- C5: CAPTCHA gate ordering on create and report — a request with no
challenge token fails with MissingCaptcha (400) before anything else
(empty trace: no external call, no store access); with a token but no
provisioned verifier secret it fails with ConfigError (500) before any
external verification call (empty trace); with a token and secret, a
non-success verification outcome fails with CaptchaFailed (403) carrying
the service's reported reason codes. -/
theorem captcha_gate_ordering (env : Env) (store : Store) (cb : CreateBody)
    (rb : ReportBody) (ip : Option String) :
    (truthyO cb.token = false →
      createW env store cb ip
        = ⟨errorResponseW "Missing CAPTCHA token." 400 corsCreateW, store, [], none⟩)
    ∧ (truthyO rb.token = false →
      reportW env store rb ip
        = ⟨errorResponseW "Missing CAPTCHA token." 400 corsReportW, store, [], none⟩)
    ∧ (truthyO cb.token = true → truthyO env.secretKey = false →
      createW env store cb ip
        = ⟨errorResponseW "CAPTCHA configuration error." 500 corsCreateW, store, [], none⟩)
    ∧ (truthyO rb.token = true → truthyO env.secretKey = false →
      reportW env store rb ip
        = ⟨errorResponseW "CAPTCHA configuration error." 500 corsReportW, store, [], none⟩)
    ∧ (truthyO cb.token = true → truthyO env.secretKey = true →
      (env.verify (cb.token.getD "") ip).success = false →
      createW env store cb ip
        = ⟨errorResponseW ("CAPTCHA verification failed. ["
              ++ joinCodes (env.verify (cb.token.getD "") ip).errorCodes ++ "]") 403 corsCreateW,
           store, [.turnstileCall (env.secretKey.getD "") (cb.token.getD "") ip], none⟩)
    ∧ (truthyO rb.token = true → truthyO env.secretKey = true →
      (env.verify (rb.token.getD "") ip).success = false →
      reportW env store rb ip
        = ⟨errorResponseW ("CAPTCHA verification failed. ["
              ++ joinCodes (env.verify (rb.token.getD "") ip).errorCodes ++ "]") 403 corsReportW,
           store, [.turnstileCall (env.secretKey.getD "") (rb.token.getD "") ip], none⟩) := by
  refine ⟨fun h => ?_, fun h => ?_, fun h1 h2 => ?_, fun h1 h2 => ?_,
    fun h1 h2 h3 => ?_, fun h1 h2 h3 => ?_⟩
  · unfold createW; simp [h]
  · unfold reportW; simp [h]
  · unfold createW; simp [h1, h2]
  · unfold reportW; simp [h1, h2]
  · unfold createW; dsimp only; simp [h1, h2, h3]
  · unfold reportW; dsimp only; simp [h1, h2, h3]

/-- C5 witness: the gate theorem applied at concrete requests — a create
with no token, a report against an environment with no secret, and a
create whose verification fails with two reason codes. -/
theorem captcha_gate_ordering_witness :
    createW envC emptyStore ⟨some "https://example.com", none⟩ none
      = ⟨errorResponseW "Missing CAPTCHA token." 400 corsCreateW, emptyStore, [], none⟩
    ∧ reportW envNoSecret emptyStore ⟨some "https://example.com", some "tok"⟩ none
      = ⟨errorResponseW "CAPTCHA configuration error." 500 corsReportW, emptyStore, [], none⟩
    ∧ createW envFail emptyStore ⟨some "https://example.com", some "tok"⟩ none
      = ⟨errorResponseW
           "CAPTCHA verification failed. [invalid-input-response, timeout-or-duplicate]"
           403 corsCreateW, emptyStore, [.turnstileCall "sk" "tok" none], none⟩ := by
  refine ⟨(captcha_gate_ordering envC emptyStore ⟨some "https://example.com", none⟩
      ⟨none, none⟩ none).1 (by decide), ?_, ?_⟩
  · exact (captcha_gate_ordering envNoSecret emptyStore ⟨none, none⟩
      ⟨some "https://example.com", some "tok"⟩ none).2.2.2.1 (by decide) (by decide)
  · have h := (captcha_gate_ordering envFail emptyStore ⟨some "https://example.com", some "tok"⟩
      ⟨none, none⟩ none).2.2.2.2.1 (by decide) (by decide) (by decide)
    rw [h]
    rfl

/-- C7: for every create input that does not parse as an absolute URL
(including a missing or empty `longUrl`), the handler answers 400 with
the validation message, leaves the store untouched, and its trace holds
only the gate's verification call — in particular no KV access at all:
the hostname parse failure at the blocklist stage is tolerated (the
check is skipped) and surfaced by the later URL validation. -/
theorem invalid_url_create_validation (env : Env) (store : Store) (cb : CreateBody)
    (ip : Option String)
    (htok : truthyO cb.token = true)
    (hsk : truthyO env.secretKey = true)
    (hver : (env.verify (cb.token.getD "") ip).success = true)
    (hbad : ∀ u, cb.longUrl = some u → env.parseURL u = none) :
    createW env store cb ip
      = ⟨errorResponseW
           (if truthyO cb.longUrl = true then "Invalid URL format provided."
            else "Missing longUrl parameter") 400 corsCreateW,
         store, [.turnstileCall (env.secretKey.getD "") (cb.token.getD "") ip], none⟩ := by
  have ht : cb.token.getD "" ≠ "" := by simpa [truthyO] using htok
  have hs : env.secretKey.getD "" ≠ "" := by simpa [truthyO] using hsk
  unfold createW createRest
  dsimp only
  rcases hl : cb.longUrl with _ | u
  · simp [ht, hs, hver, hl, truthyO]
  · have hp := hbad u hl
    by_cases hu : u = ""
    · subst hu
      simp [ht, hs, hver, hl, hp, truthyO]
    · simp [ht, hs, hver, hl, hp, hu, truthyO]

/-- C7 witness: `create("not a url")` with a passing gate answers 400
`Invalid URL format provided.` with no store effect. -/
theorem invalid_url_create_validation_witness :
    createW envC emptyStore ⟨some "not a url", some "tok"⟩ none
      = ⟨errorResponseW "Invalid URL format provided." 400 corsCreateW,
         emptyStore, [.turnstileCall "sk" "tok" none], none⟩ := by
  have h := invalid_url_create_validation envC emptyStore ⟨some "not a url", some "tok"⟩ none
    (by decide) (by decide) (by decide) (by intro u hu; cases hu; rfl)
  rw [h]
  rfl

/-- C8: the click-increment task reads `shortId_meta`; when it is absent
it performs no store write (no auto-repair); when it holds a metadata
record it writes back that record with `clicks` increased by exactly 1
and `originalUrl` and `createdAt` unchanged, touching no other key; and
the task is the one a successful resolve spawns. -/
theorem click_increment_semantics (store : Store) (id : String) :
    (store (id ++ "_meta") = none → clickIncrement store id = store)
    ∧ (∀ m, store (id ++ "_meta") = some (.meta m) →
        clickIncrement store id
          = putKV store (id ++ "_meta") (.meta ⟨m.originalUrl, m.createdAt, m.clicks + 1⟩)
        ∧ clickIncrement store id (id ++ "_meta")
            = some (.meta ⟨m.originalUrl, m.createdAt, m.clicks + 1⟩)
        ∧ (∀ k2, k2 ≠ id ++ "_meta" → clickIncrement store id k2 = store k2))
    ∧ (∀ path v, strStartsWith path "/+" = true → path.drop 2 = id → id ≠ "" →
        store id = some v → truthyVal v = true →
        (redirectW store path).task = some id) := by
  refine ⟨fun habs => by simp [clickIncrement, habs], fun m hm => ?_, ?_⟩
  · refine ⟨by simp [clickIncrement, hm, truthyVal, parseMetaVal], ?_, ?_⟩
    · simp [clickIncrement, hm, truthyVal, parseMetaVal, putKV]
    · intro k2 hk2
      simp [clickIncrement, hm, truthyVal, parseMetaVal, putKV, hk2]
  · intro path v hpre hdrop hne hv htr
    simp [redirectW, hpre, hdrop, truthyO, hne, hv, htr]

/-- C8 witness: incrementing the stored link `ab` (7 clicks) yields 8
with the other fields unchanged, and resolving `/+ab` spawns the task. -/
theorem click_increment_semantics_witness :
    clickIncrement storeAB "ab" "ab_meta"
      = some (.meta ⟨"https://example.com", "t0", 8⟩)
    ∧ (redirectW storeAB "/+ab").task = some "ab" := by
  refine ⟨((click_increment_semantics storeAB "ab").2.1
      ⟨"https://example.com", "t0", 7⟩ rfl).2.1, ?_⟩
  exact (click_increment_semantics storeAB "ab").2.2 "/+ab" (.str "https://example.com")
    (by decide) (by decide) (by decide) rfl (by decide)

/-- C9: resolving a shortId with no URL entry in the store answers a
plain-text 404, leaves the store untouched, performs only the single KV
read, and spawns no click-increment task. -/
theorem resolve_unknown_notfound (store : Store) (path id : String)
    (hpre : strStartsWith path "/+" = true) (hdrop : path.drop 2 = id)
    (hne : id ≠ "") (habs : store id = none) :
    redirectW store path
      = ⟨⟨404, .text "Short URL not found.", []⟩, store, [.kvGet id], none⟩ := by
  simp [redirectW, hpre, hdrop, truthyO, hne, habs]

/-- C9 witness: resolving the unknown ID `zzz` on the empty store. -/
theorem resolve_unknown_notfound_witness :
    redirectW emptyStore "/+zzz"
      = ⟨⟨404, .text "Short URL not found.", []⟩, emptyStore, [.kvGet "zzz"], none⟩ :=
  resolve_unknown_notfound emptyStore "/+zzz" "zzz" (by decide) (by decide) (by decide) rfl

/-- C10: on every store and path, the base variant and the abuse-gated
variant produce the same status, body, store, effects and spawned task
on the stats endpoint, with headers equal once the
`Access-Control-Allow-Origin` value is erased; on the redirect path the
two handlers are outright equal. -/
theorem variant_equivalence_stats_redirect (store : Store) (path : String) :
    ((statsW store path).resp.status = (statsB store path).resp.status
     ∧ (statsW store path).resp.body = (statsB store path).resp.body
     ∧ normACAO (statsW store path).resp.headers = normACAO (statsB store path).resp.headers
     ∧ (statsW store path).store = (statsB store path).store
     ∧ (statsW store path).trace = (statsB store path).trace
     ∧ (statsW store path).task = (statsB store path).task)
    ∧ redirectW store path = redirectB store path := by
  refine ⟨?_, rfl⟩
  unfold statsW statsB
  dsimp only
  generalize (if strStartsWith (path.drop 11) "+" = true
      then (path.drop 11).drop 1 else path.drop 11) = sid
  by_cases h1 : sid = ""
  · simp [h1, errorResponseW, errorResponseB, jsonResponseW, jsonResponseB,
      setHeader, spreadHeaders, corsStatsW, corsStatsB, normACAO]
  · simp only [h1, if_false]
    rcases hv : store (sid ++ "_meta") with _ | v
    · simp [hv, errorResponseW, errorResponseB, jsonResponseW, jsonResponseB,
        setHeader, spreadHeaders, corsStatsW, corsStatsB, normACAO]
    · simp only [hv]
      by_cases h2 : truthyVal v = false
      · simp [h2, errorResponseW, errorResponseB, jsonResponseW, jsonResponseB,
          setHeader, spreadHeaders, corsStatsW, corsStatsB, normACAO]
      · simp only [h2, if_false]
        rcases hpm : parseMetaVal v with _ | m
        · simp [hpm, errorResponseW, errorResponseB, jsonResponseW, jsonResponseB,
            setHeader, spreadHeaders, corsStatsW, corsStatsB, normACAO]
        · simp [hpm, errorResponseW, errorResponseB, jsonResponseW, jsonResponseB,
            setHeader, spreadHeaders, corsStatsW, corsStatsB, normACAO]

/-- C1: round-trip — a create request with a syntactically valid
absolute URL and a passing gate (valid token, provisioned secret,
successful verification, unblocked domain) answers 200 with the short
reference of the assigned ID, stores the submitted URL under that ID,
and a subsequent resolve/redirect of that ID on the resulting store
answers 301 pointing at exactly the submitted URL. -/
theorem create_resolve_roundtrip (env : Env) (store : Store) (cb : CreateBody)
    (ip : Option String) (u : String) (obj : UrlObj) (id : String)
    (hl : cb.longUrl = some u) (hu : u ≠ "")
    (htok : truthyO cb.token = true)
    (hsk : truthyO env.secretKey = true)
    (hver : (env.verify (cb.token.getD "") ip).success = true)
    (hobj : env.parseURL u = some obj)
    (hblock : store ("BLOCKED:" ++ normalizeDomain obj.hostname) = none)
    (hid : (idLoop env store 0 6).1 = some id) (hidne : id ≠ "") :
    (createW env store cb ip).resp
        = jsonResponseW (.createObj ("https://lkly.net/+" ++ id) u) 200 corsCreateW
    ∧ (createW env store cb ip).store id = some (.str u)
    ∧ (∀ path, strStartsWith path "/+" = true → path.drop 2 = id →
        redirectW (createW env store cb ip).store path
          = ⟨⟨301, .empty, [("Location", u)]⟩, (createW env store cb ip).store,
             [.kvGet id], some id⟩) := by
  have ht : cb.token.getD "" ≠ "" := by simpa [truthyO] using htok
  have hs : env.secretKey.getD "" ≠ "" := by simpa [truthyO] using hsk
  have hne : id ≠ id ++ "_meta" := fun h => append_meta_ne id h.symm
  have key : (createW env store cb ip).resp
        = jsonResponseW (.createObj ("https://lkly.net/+" ++ id) u) 200 corsCreateW
      ∧ (createW env store cb ip).store
        = putKV (putKV store id (.str u)) (id ++ "_meta") (.meta ⟨u, env.nowISO, 0⟩) := by
    unfold createW createRest
    dsimp only
    by_cases hd : normalizeDomain obj.hostname = ""
    · simp [ht, hs, hver, hl, hobj, hu, hid, hd, truthyO]
    · simp [ht, hs, hver, hl, hobj, hu, hid, hd, hblock, truthyO]
  have hlook : (createW env store cb ip).store id = some (.str u) := by
    rw [key.2]
    simp [putKV, hne]
  refine ⟨key.1, hlook, ?_⟩
  intro path h1 h2
  simp [redirectW, h1, h2, truthyO, hidne, hlook, truthyVal, hu, StoreVal.asString]

/-- C1 witness: creating `https://example.com` on the empty store with
envC assigns `abc123`, and `/+abc123` then redirects to it. -/
theorem create_resolve_roundtrip_witness :
    (createW envC emptyStore ⟨some "https://example.com", some "tok"⟩ none).resp
        = jsonResponseW (.createObj "https://lkly.net/+abc123" "https://example.com")
            200 corsCreateW
    ∧ redirectW (createW envC emptyStore ⟨some "https://example.com", some "tok"⟩ none).store
          "/+abc123"
        = ⟨⟨301, .empty, [("Location", "https://example.com")]⟩,
           (createW envC emptyStore ⟨some "https://example.com", some "tok"⟩ none).store,
           [.kvGet "abc123"], some "abc123"⟩ := by
  have T := create_resolve_roundtrip envC emptyStore ⟨some "https://example.com", some "tok"⟩
    none "https://example.com" ⟨"example.com"⟩ "abc123"
    rfl (by decide) (by decide) (by decide) (by decide) (by decide) rfl rfl (by decide)
  exact ⟨T.1, T.2.2 "/+abc123" (by decide) (by decide)⟩

/-- C2: short-ID assignment — the generation loop only ever returns an
ID absent from the store (no existing mapping is overwritten); when the
first five candidates all collide it stops after exactly five existence
checks and returns exhaustion; and a create request hitting exhaustion
answers 500 `Failed to generate a unique short ID.` leaving the store
unchanged. -/
theorem shortid_assignment_bounded (env : Env) (store : Store) :
    (∀ id tl, idLoop env store 0 6 = (some id, tl) → store id = none)
    ∧ ((∀ k, k < 5 → store (env.shortIds k) ≠ none) →
        idLoop env store 0 6
          = (none, [.kvGet (env.shortIds 0), .kvGet (env.shortIds 1), .kvGet (env.shortIds 2),
                    .kvGet (env.shortIds 3), .kvGet (env.shortIds 4)]))
    ∧ (∀ cb ip u obj, cb.longUrl = some u → u ≠ "" →
        truthyO cb.token = true → truthyO env.secretKey = true →
        (env.verify (cb.token.getD "") ip).success = true →
        env.parseURL u = some obj →
        store ("BLOCKED:" ++ normalizeDomain obj.hostname) = none →
        (idLoop env store 0 6).1 = none →
        (createW env store cb ip).resp
            = errorResponseW "Failed to generate a unique short ID." 500 corsCreateW
          ∧ (createW env store cb ip).store = store) := by
  refine ⟨fun id tl h => idLoop_some_absent env store 6 0 id tl h, fun h5 => ?_, ?_⟩
  · obtain ⟨v0, hv0⟩ := Option.ne_none_iff_exists'.mp (h5 0 (by omega))
    obtain ⟨v1, hv1⟩ := Option.ne_none_iff_exists'.mp (h5 1 (by omega))
    obtain ⟨v2, hv2⟩ := Option.ne_none_iff_exists'.mp (h5 2 (by omega))
    obtain ⟨v3, hv3⟩ := Option.ne_none_iff_exists'.mp (h5 3 (by omega))
    obtain ⟨v4, hv4⟩ := Option.ne_none_iff_exists'.mp (h5 4 (by omega))
    simp [idLoop, hv0, hv1, hv2, hv3, hv4]
  · intro cb ip u obj hl hu htok hsk hver hobj hblock hexh
    have ht : cb.token.getD "" ≠ "" := by simpa [truthyO] using htok
    have hs : env.secretKey.getD "" ≠ "" := by simpa [truthyO] using hsk
    unfold createW createRest
    dsimp only
    by_cases hd : normalizeDomain obj.hostname = ""
    · simp [ht, hs, hver, hl, hobj, hu, hexh, hd, truthyO]
    · simp [ht, hs, hver, hl, hobj, hu, hexh, hd, hblock, truthyO]

/-- C2 witness: on a store already holding every candidate `envC` can
generate, the loop performs its five checks and gives up, and the create
request answers 500 without touching the store. -/
theorem shortid_assignment_bounded_witness :
    idLoop envC storeIds 0 6
      = (none, [.kvGet "abc123", .kvGet "abc123", .kvGet "abc123",
                .kvGet "abc123", .kvGet "abc123"])
    ∧ (createW envC storeIds ⟨some "https://example.com", some "tok"⟩ none).resp
        = errorResponseW "Failed to generate a unique short ID." 500 corsCreateW
    ∧ (createW envC storeIds ⟨some "https://example.com", some "tok"⟩ none).store
        = storeIds := by
  have T := shortid_assignment_bounded envC storeIds
  have h5 : ∀ k, k < 5 → storeIds (envC.shortIds k) ≠ none := by
    intro k hk h
    simp [envC, storeIds] at h
  have hC := T.2.2 ⟨some "https://example.com", some "tok"⟩ none "https://example.com"
    ⟨"example.com"⟩ rfl (by decide) (by decide) (by decide) (by decide) (by decide) rfl
    (by rw [T.2.1 h5])
  exact ⟨T.2.1 h5, hC.1, hC.2⟩

/-- C3: auto-block pipeline — when a report's updated count for a
normalized domain reaches the threshold 3, the handler answers the
"domain blocked" message, writes the `BLOCKED:domain` entry tagged
`auto`, and from then on every create whose destination URL has that
normalized domain (with a passing gate) fails 403 DomainBlocked with no
store change. -/
theorem report_autoblock_pipeline (env : Env) (store : Store) (rb : ReportBody)
    (ip : Option String) (ru : String) (obj : UrlObj) (d : String) (c : Int)
    (htok : truthyO rb.token = true)
    (hsk : truthyO env.secretKey = true)
    (hver : (env.verify (rb.token.getD "") ip).success = true)
    (hru : rb.reportedUrl = some ru) (hrune : ru ≠ "")
    (hns : shortMatch ru = none)
    (hobj : env.parseURL ru = some obj)
    (hd : normalizeDomain obj.hostname = d) (hdne : d ≠ "")
    (hth : store ("REPORTED:" ++ jsInterp ip ++ ":" ++ d) = none)
    (hc : (jsParseInt (reportCountRaw store d)).map (· + 1) = some c)
    (hc3 : c ≥ 3) :
    (reportW env store rb ip).resp
        = jsonResponseW
            (.msgObj "Report submitted. Domain has been blocked due to multiple reports.")
            200 corsReportW
    ∧ (reportW env store rb ip).store ("BLOCKED:" ++ d) = some (.str "auto")
    ∧ (∀ env2 store2 cb2 ip2 u2 obj2,
        store2 ("BLOCKED:" ++ d) ≠ none →
        cb2.longUrl = some u2 →
        truthyO cb2.token = true → truthyO env2.secretKey = true →
        (env2.verify (cb2.token.getD "") ip2).success = true →
        env2.parseURL u2 = some obj2 → normalizeDomain obj2.hostname = d →
        (createW env2 store2 cb2 ip2).resp
            = errorResponseW "This domain has been blocked and cannot be shortened."
                403 corsCreateW
          ∧ (createW env2 store2 cb2 ip2).store = store2) := by
  have ht : rb.token.getD "" ≠ "" := by simpa [truthyO] using htok
  have hs : env.secretKey.getD "" ≠ "" := by simpa [truthyO] using hsk
  refine ⟨?_, ?_, ?_⟩
  · unfold reportW reportRest
    dsimp only
    simp [ht, hs, hver, hru, hrune, hns, hobj, hd, hdne, hth, hc, hc3, truthyO]
  · unfold reportW reportRest
    dsimp only
    simp [ht, hs, hver, hru, hrune, hns, hobj, hd, hdne, hth, hc, hc3, truthyO, putKV]
  · intro env2 store2 cb2 ip2 u2 obj2 hblocked hl2 htok2 hsk2 hver2 hobj2 hd2
    have ht2 : cb2.token.getD "" ≠ "" := by simpa [truthyO] using htok2
    have hs2 : env2.secretKey.getD "" ≠ "" := by simpa [truthyO] using hsk2
    obtain ⟨bv, hbv⟩ := Option.ne_none_iff_exists'.mp hblocked
    unfold createW
    dsimp only
    simp [ht2, hs2, hver2, hl2, hobj2, hd2, hdne, hbv, truthyO]

/-- C3 witness: the third report of `https://www.evil.com/x`, from a
third distinct IP, blocks `evil.com`, and a subsequent create targeting
it fails 403. -/
theorem report_autoblock_pipeline_witness :
    (reportW envC storeAfterTwoReports reportBodyEvil (some "ip3")).store "BLOCKED:evil.com"
        = some (.str "auto")
    ∧ (createW envC (reportW envC storeAfterTwoReports reportBodyEvil (some "ip3")).store
          ⟨some "https://www.evil.com/x", some "tok"⟩ none).resp
        = errorResponseW "This domain has been blocked and cannot be shortened."
            403 corsCreateW := by
  have T := report_autoblock_pipeline envC storeAfterTwoReports reportBodyEvil (some "ip3")
    "https://www.evil.com/x" ⟨"evil.com"⟩ "evil.com" 3
    (by decide) (by decide) (by decide) rfl (by decide) (by decide) (by decide)
    (by decide) (by decide) (by decide) (by decide) (by decide)
  refine ⟨T.2.1, ?_⟩
  have C := T.2.2 envC
    (reportW envC storeAfterTwoReports reportBodyEvil (some "ip3")).store
    ⟨some "https://www.evil.com/x", some "tok"⟩ none "https://www.evil.com/x" ⟨"evil.com"⟩
    (by rw [T.2.1]; simp) rfl (by decide) (by decide) (by decide) (by decide) (by decide)
  exact C.1

/-- C4: report throttling — when a ReportThrottle entry for the
(reporterIP, domain) pair exists, the report answers 429 with the
"already reported" acknowledgement, leaves the store untouched, and its
trace holds only the gate's verification call and the throttle read: the
count is not incremented and no write is performed. -/
theorem report_throttle_429 (env : Env) (store : Store) (rb : ReportBody)
    (ip : Option String) (ru : String) (obj : UrlObj) (d : String) (v : StoreVal)
    (htok : truthyO rb.token = true)
    (hsk : truthyO env.secretKey = true)
    (hver : (env.verify (rb.token.getD "") ip).success = true)
    (hru : rb.reportedUrl = some ru) (hrune : ru ≠ "")
    (hns : shortMatch ru = none)
    (hobj : env.parseURL ru = some obj)
    (hd : normalizeDomain obj.hostname = d) (hdne : d ≠ "")
    (hth : store ("REPORTED:" ++ jsInterp ip ++ ":" ++ d) = some v) :
    reportW env store rb ip
      = ⟨jsonResponseW (.msgObj "You have already reported this domain recently.")
           429 corsReportW,
         store,
         [.turnstileCall (env.secretKey.getD "") (rb.token.getD "") ip,
          .kvGet ("REPORTED:" ++ jsInterp ip ++ ":" ++ d)], none⟩ := by
  have ht : rb.token.getD "" ≠ "" := by simpa [truthyO] using htok
  have hs : env.secretKey.getD "" ≠ "" := by simpa [truthyO] using hsk
  unfold reportW reportRest
  dsimp only
  simp [ht, hs, hver, hru, hrune, hns, hobj, hd, hdne, hth, truthyO]

/-- C4 witness: a second report of `evil.com` from `9.9.9.9` within the
window answers 429 and writes nothing. -/
theorem report_throttle_429_witness :
    reportW envC storeThrottled reportBodyEvil (some "9.9.9.9")
      = ⟨jsonResponseW (.msgObj "You have already reported this domain recently.")
           429 corsReportW,
         storeThrottled,
         [.turnstileCall "sk" "tok" (some "9.9.9.9"),
          .kvGet "REPORTED:9.9.9.9:evil.com"], none⟩ := by
  have h := report_throttle_429 envC storeThrottled reportBodyEvil (some "9.9.9.9")
    "https://www.evil.com/x" ⟨"evil.com"⟩ "evil.com" (.str "1")
    (by decide) (by decide) (by decide) rfl (by decide) (by decide) (by decide)
    (by decide) (by decide) (by decide)
  rw [h]
  rfl

/-- C6 (spec-modelled): fail-closed threat check — a positive match
yields URLFlaggedUnsafe; a missing API key or any failure of the
external call yields SafeBrowsingError; the request is allowed through
only when the key is present and the lookup positively reports no
match. -/
theorem safe_browsing_fail_closed (apiKey : Option String) (outcome : ThreatOutcome) :
    (truthyO apiKey = true →
      ∀ types, safeBrowsingDecision apiKey (.matched types) = .urlFlaggedUnsafe)
    ∧ (truthyO apiKey = false → safeBrowsingDecision apiKey outcome = .safeBrowsingError)
    ∧ (∀ s, safeBrowsingDecision apiKey (.httpError s) ≠ .allow)
    ∧ safeBrowsingDecision apiKey .networkError ≠ .allow
    ∧ (safeBrowsingDecision apiKey outcome = .allow →
        truthyO apiKey = true ∧ outcome = .noMatch) := by
  by_cases h : truthyO apiKey = false
  · cases outcome <;> simp [safeBrowsingDecision, h]
  · have h2 : truthyO apiKey = true := by revert h; cases truthyO apiKey <;> simp
    cases outcome <;> simp [safeBrowsingDecision, h2]

/-- C6 witness: the decision at a flagged URL, at a missing key, and at
a failing external call. -/
theorem safe_browsing_fail_closed_witness :
    safeBrowsingDecision (some "key") (.matched ["MALWARE"]) = .urlFlaggedUnsafe
    ∧ safeBrowsingDecision none .noMatch = .safeBrowsingError
    ∧ safeBrowsingDecision (some "key") (.httpError 500) ≠ .allow := by
  refine ⟨(safe_browsing_fail_closed (some "key") .noMatch).1 (by decide) ["MALWARE"], ?_, ?_⟩
  · exact (safe_browsing_fail_closed none .noMatch).2.1 (by decide)
  · exact (safe_browsing_fail_closed (some "key") .noMatch).2.2.1 500

end Shorty
